import Mathlib

/-!
Verification of the chat-store normalization engine of the AI-IDE chat
export tool.  The Python sources under `backend/` are shallowly embedded:
dictionaries become structures with `Option` fields (`d.get(k, v)` becomes
`o.getD v`), Python strings become `String`, `json.loads` becomes the
executable `jsonParse` below, and the one uncaught exception path of
`_extract_structured_content` is modelled with `Except`.
-/

/-- Whitespace characters stripped by Python `str.strip()`
(ASCII subset; the conversations never contain exotic Unicode spaces). -/
def isPySpace (c : Char) : Bool :=
  c = ' ' || c = '\t' || c = '\n' || c = '\r' || c = Char.ofNat 11 || c = Char.ofNat 12

/-- Drop leading and trailing whitespace from a character list. -/
def stripChars (l : List Char) : List Char :=
  ((l.dropWhile isPySpace).reverse.dropWhile isPySpace).reverse

/-- Python `str.strip()`: drop leading and trailing whitespace. -/
def pyStrip (s : String) : String :=
  ⟨stripChars s.toList⟩

/-- Python substring test `a in b`: `a` occurs contiguously inside `b`. -/
def substr (a b : String) : Prop :=
  a.toList <:+: b.toList

instance (a b : String) : Decidable (substr a b) :=
  List.decidableInfix a.toList b.toList

/-- Python `sep.join(parts)`. -/
def pyJoin (sep : String) : List String → String
  | [] => ""
  | [a] => a
  | a :: rest => a ++ sep ++ pyJoin sep rest

/-- Values produced by Python `json.loads`.  JSON numbers without a
fraction or exponent decode to `num`; other numeric tokens (floats,
`NaN`, `Infinity`) are kept as their raw text in `flt`. -/
inductive JVal where
  | null : JVal
  | bool : Bool → JVal
  | num : Int → JVal
  | flt : String → JVal
  | str : String → JVal
  | arr : List JVal → JVal
  | obj : List (String × JVal) → JVal

/-- Lookup in a Python `dict` modelled as an association list with unique
keys (`dict.get`); first match wins. -/
def pyDictGet {α : Type} (fields : List (String × α)) (k : String) : Option α :=
  match fields with
  | [] => none
  | (k₀, v) :: rest => if k₀ = k then some v else pyDictGet rest k

/-- Insert a key into a Python `dict`: an existing key keeps its position
and gets the new value, a new key is appended. -/
def dictInsert {α : Type} (fields : List (String × α)) (k : String) (v : α) :
    List (String × α) :=
  match fields with
  | [] => [(k, v)]
  | (k₀, v₀) :: rest =>
      if k₀ = k then (k₀, v) :: rest else (k₀, v₀) :: dictInsert rest k v

/-- A float token denotes Python `0.0` exactly when every mantissa digit is
zero (sign, dot and exponent do not matter). -/
def fltIsZero (raw : String) : Bool :=
  let mantissa := raw.toList.takeWhile (fun c => c ≠ 'e' ∧ c ≠ 'E')
  mantissa.all (fun c => !c.isDigit || c = '0')

/-- Python truthiness of a JSON-decoded value (`if not v`). -/
def jvalFalsy : JVal → Bool
  | .null => true
  | .bool b => !b
  | .num n => n = 0
  | .flt raw => fltIsZero raw
  | .str s => s = ""
  | .arr xs => xs.isEmpty
  | .obj fields => fields.isEmpty

/-- A single-quote character as a string (code 39). -/
def pySq : String := String.mk [Char.ofNat 39]

mutual

/-- Python `repr` of a JSON-decoded value, used by `pyStr` for containers
(escape handling inside quoted strings is approximated; no claim in this
development evaluates it). -/
def pyRepr : JVal → String
  | .null => "None"
  | .bool b => if b then "True" else "False"
  | .num n => toString n
  | .flt raw => raw
  | .str s => pySq ++ s ++ pySq
  | .arr xs => "[" ++ pyJoin ", " (pyReprList xs) ++ "]"
  | .obj fields => "\x7b" ++ pyJoin ", " (pyReprFields fields) ++ "\x7d"

def pyReprList : List JVal → List String
  | [] => []
  | v :: rest => pyRepr v :: pyReprList rest

def pyReprFields : List (String × JVal) → List String
  | [] => []
  | (k, v) :: rest => (pySq ++ k ++ pySq ++ ": " ++ pyRepr v) :: pyReprFields rest

end

/-- Python `str(v)` / f-string interpolation of a JSON-decoded value. -/
def pyStr : JVal → String
  | .str s => s
  | .num n => toString n
  | .bool b => if b then "True" else "False"
  | .null => "None"
  | .flt raw => raw
  | .arr xs => pyRepr (.arr xs)
  | .obj fields => pyRepr (.obj fields)

/-- JSON whitespace skipped by `json.loads` between tokens. -/
def skipWs (cs : List Char) : List Char :=
  cs.dropWhile (fun c => c = ' ' || c = '\t' || c = '\n' || c = '\r')

/-- Value of one hexadecimal digit. -/
def hexVal (c : Char) : Option Nat :=
  if '0' ≤ c ∧ c ≤ '9' then some (c.toNat - 48)
  else if 'a' ≤ c ∧ c ≤ 'f' then some (c.toNat - 87)
  else if 'A' ≤ c ∧ c ≤ 'F' then some (c.toNat - 55)
  else none

/-- Four hex digits of a `\uXXXX` escape. -/
def parseHex4 : List Char → Option (Nat × List Char)
  | c1 :: c2 :: c3 :: c4 :: rest => do
      let h1 ← hexVal c1
      let h2 ← hexVal c2
      let h3 ← hexVal c3
      let h4 ← hexVal c4
      some (((h1 * 16 + h2) * 16 + h3) * 16 + h4, rest)
  | _ => none

/-- Decode the body of a JSON string after the opening quote, following
`json.loads` in strict mode: raw control characters are rejected, the
eight standard escapes and `\uXXXX` (with surrogate pairs) are accepted.
A lone surrogate, which Python keeps in the `str`, is not a Lean scalar
value and is mapped to U+FFFD; no claim exercises that corner. -/
def takeJStr : Nat → List Char → Option (List Char × List Char)
  | 0, _ => none
  | _, [] => none
  | fuel + 1, c :: rest =>
      if c = '"' then some ([], rest)
      else if c = '\\' then
        match rest with
        | [] => none
        | e :: rest2 =>
            if e = 'u' then
              match parseHex4 rest2 with
              | none => none
              | some (n, rest3) =>
                  if 0xD800 ≤ n ∧ n ≤ 0xDBFF then
                    match rest3 with
                    | '\\' :: 'u' :: rest4 =>
                        match parseHex4 rest4 with
                        | some (m, rest5) =>
                            if 0xDC00 ≤ m ∧ m ≤ 0xDFFF then do
                              let scalar := 0x10000 + (n - 0xD800) * 0x400 + (m - 0xDC00)
                              let (tail, rem) ← takeJStr fuel rest5
                              some (Char.ofNat scalar :: tail, rem)
                            else do
                              let (tail, rem) ← takeJStr fuel rest3
                              some (Char.ofNat 0xFFFD :: tail, rem)
                        | none => do
                            let (tail, rem) ← takeJStr fuel rest3
                            some (Char.ofNat 0xFFFD :: tail, rem)
                    | _ => do
                        let (tail, rem) ← takeJStr fuel rest3
                        some (Char.ofNat 0xFFFD :: tail, rem)
                  else do
                    let (tail, rem) ← takeJStr fuel rest3
                    some (Char.ofNat n :: tail, rem)
            else
              let decoded : Option Char :=
                if e = '"' then some '"'
                else if e = '\\' then some '\\'
                else if e = '/' then some '/'
                else if e = 'b' then some (Char.ofNat 8)
                else if e = 'f' then some (Char.ofNat 12)
                else if e = 'n' then some '\n'
                else if e = 'r' then some '\r'
                else if e = 't' then some '\t'
                else none
              match decoded with
              | none => none
              | some d => do
                  let (tail, rem) ← takeJStr fuel rest2
                  some (d :: tail, rem)
      else if c.toNat < 0x20 then none
      else do
        let (tail, rem) ← takeJStr fuel rest
        some (c :: tail, rem)

/-- Digits of a nonnegative decimal numeral. -/
def digitsToNat (ds : List Char) : Nat :=
  ds.foldl (fun a c => a * 10 + (c.toNat - 48)) 0

/-- Parse a JSON number token.  An integer token becomes `JVal.num`; a
token with a fraction or exponent becomes `JVal.flt` carrying its text. -/
def parseNumTok (cs : List Char) : Option (JVal × List Char) :=
  let (sign, cs1) :=
    match cs with
    | '-' :: t => ([ '-' ], t)
    | _ => (([] : List Char), cs)
  let (ip, cs2) := (cs1.takeWhile Char.isDigit, cs1.dropWhile Char.isDigit)
  if ip = [] then none
  else if ip.length > 1 ∧ ip.head? = some '0' then none
  else
    let fracRes : Option (List Char × List Char) :=
      match cs2 with
      | '.' :: t =>
          let ds := t.takeWhile Char.isDigit
          if ds = [] then none else some ('.' :: ds, t.dropWhile Char.isDigit)
      | _ => some ([], cs2)
    match fracRes with
    | none => none
    | some (fp, cs3) =>
        let expRes : Option (List Char × List Char) :=
          match cs3 with
          | e :: t =>
              if e = 'e' ∨ e = 'E' then
                let (sgn, t2) :=
                  match t with
                  | '+' :: u => (['+'], u)
                  | '-' :: u => ([ '-' ], u)
                  | _ => (([] : List Char), t)
                let ds := t2.takeWhile Char.isDigit
                if ds = [] then none
                else some (e :: (sgn ++ ds), t2.dropWhile Char.isDigit)
              else some ([], cs3)
          | [] => some ([], cs3)
        match expRes with
        | none => none
        | some (ep, cs4) =>
            if fp = [] ∧ ep = [] then
              let mag : Int := Int.ofNat (digitsToNat ip)
              some (.num (if sign = [] then mag else -mag), cs4)
            else some (.flt ⟨sign ++ ip ++ fp ++ ep⟩, cs4)

/-- The list begins with the given keyword. -/
def kwAt (kw : String) (cs : List Char) : Bool :=
  kw.toList.isPrefixOf cs

mutual

/-- One JSON value, as accepted by Python `json.loads` (including its
`NaN`/`Infinity` extensions).  Fueled recursive descent; every recursive
call consumes at least one character, so `length + 1` fuel suffices. -/
def parseVal : Nat → List Char → Option (JVal × List Char)
  | 0, _ => none
  | fuel + 1, cs =>
      match skipWs cs with
      | [] => none
      | c :: rest =>
          if c = '"' then
            match takeJStr (rest.length + 1) rest with
            | some (body, rem) => some (.str ⟨body⟩, rem)
            | none => none
          else if c = Char.ofNat 123 then
            match skipWs rest with
            | [] => none
            | c2 :: rest2 =>
                if c2 = Char.ofNat 125 then some (.obj [], rest2)
                else
                  match parseMembers fuel (c2 :: rest2) with
                  | some (pairs, rem) =>
                      some (.obj (pairs.foldl (fun acc p => dictInsert acc p.1 p.2) []), rem)
                  | none => none
          else if c = '[' then
            match skipWs rest with
            | [] => none
            | c2 :: rest2 =>
                if c2 = ']' then some (.arr [], rest2)
                else
                  match parseElems fuel (c2 :: rest2) with
                  | some (vs, rem) => some (.arr vs, rem)
                  | none => none
          else if kwAt "true" (c :: rest) then some (.bool true, rest.drop 3)
          else if kwAt "false" (c :: rest) then some (.bool false, rest.drop 4)
          else if kwAt "null" (c :: rest) then some (.null, rest.drop 3)
          else if kwAt "NaN" (c :: rest) then some (.flt "nan", rest.drop 2)
          else if kwAt "Infinity" (c :: rest) then some (.flt "inf", rest.drop 7)
          else if kwAt "-Infinity" (c :: rest) then some (.flt "-inf", rest.drop 8)
          else parseNumTok (c :: rest)

/-- Comma-separated values of a nonempty JSON array, up to `]`. -/
def parseElems : Nat → List Char → Option (List JVal × List Char)
  | 0, _ => none
  | fuel + 1, cs => do
      let (v, cs1) ← parseVal fuel cs
      match skipWs cs1 with
      | ',' :: cs2 => do
          let (vs, cs3) ← parseElems fuel cs2
          some (v :: vs, cs3)
      | ']' :: cs2 => some ([v], cs2)
      | _ => none

/-- The `key : value` members of a nonempty JSON object, up to the brace. -/
def parseMembers : Nat → List Char → Option (List (String × JVal) × List Char)
  | 0, _ => none
  | fuel + 1, cs =>
      match skipWs cs with
      | '"' :: rest => do
          let (kbody, rem) ← takeJStr (rest.length + 1) rest
          match skipWs rem with
          | ':' :: rem2 => do
              let (v, rem3) ← parseVal fuel rem2
              match skipWs rem3 with
              | ',' :: rem4 => do
                  let (pairs, rem5) ← parseMembers fuel rem4
                  some ((⟨kbody⟩, v) :: pairs, rem5)
              | c :: rem4 =>
                  if c = Char.ofNat 125 then some ([(⟨kbody⟩, v)], rem4) else none
              | [] => none
          | _ => none
      | _ => none

end

/-- Python `json.loads`: parse one JSON document, rejecting trailing
garbage.  `none` models a raised `json.JSONDecodeError`. -/
def jsonParse (s : String) : Option JVal :=
  match parseVal (s.toList.length + 1) s.toList with
  | some (v, rest) => if skipWs rest = [] then some v else none
  | none => none

/-- Result of `datetime.fromisoformat` / `datetime.now()` fallbacks in
`_parse_datetime`.  `parsed` carries the normalized ISO text; which wall
clock `now` denotes is irrelevant to every claim. -/
inductive PyTime where
  | now : PyTime
  | parsed : String → PyTime
deriving DecidableEq

/-- Recognizer for strings accepted by `datetime.fromisoformat`
(approximated by its mandatory `YYYY-MM-DD` date part; no claim in this
development depends on which branch is taken for a present timestamp). -/
def fromisoformatOk (s : String) : Bool :=
  match s.toList with
  | y1 :: y2 :: y3 :: y4 :: s1 :: m1 :: m2 :: s2 :: d1 :: d2 :: rest =>
      y1.isDigit && y2.isDigit && y3.isDigit && y4.isDigit && s1 = '-' &&
      m1.isDigit && m2.isDigit && s2 = '-' && d1.isDigit && d2.isDigit &&
      (rest.isEmpty || rest.headD ' ' = 'T' || rest.headD ' ' = ' ')
  | _ => false

/-- Model of `ConversationParser._parse_datetime` (same code is repeated in the
Cursor and VSCode extractors): empty or missing input and parse failures
fall back to the current time; a trailing `Z` is first rewritten to
`+00:00`, and the remaining `replace` rewrites any further `Z`. -/
def parseDatetime (s : Option String) : PyTime :=
  match s with
  | none => .now
  | some str =>
      if str = "" then .now
      else
        let step1 :=
          if str.endsWith "Z" then String.mk (str.toList.dropLast) ++ "+00:00" else str
        let norm := step1.replace "Z" "+00:00"
        if fromisoformatOk norm then .parsed norm else .now

/-- The `tool_use` payload of a structured output node. -/
structure ToolUseData where
  tool_name : Option String := none
  tool_use_id : Option String := none
  input_json : Option String := none
deriving DecidableEq

/-- One element of `structured_output_nodes`. -/
structure OutputNode where
  id : Option Int := none
  type : Option Int := none
  content : Option String := none
  tool_use : Option ToolUseData := none
deriving DecidableEq

/-- The `tool_result_node` payload of a structured request node. -/
structure ToolResultNode where
  content : Option String := none
deriving DecidableEq

/-- One element of `structured_request_nodes`. -/
structure RequestNode where
  type : Option Int := none
  tool_result_node : Option ToolResultNode := none
deriving DecidableEq

/-- The `result` payload of a `toolUseStates` entry. -/
structure ResultData where
  text : Option String := none
  isError : Option Bool := none
deriving DecidableEq

/-- One `toolUseStates` entry. -/
structure ToolState where
  result : Option ResultData := none
deriving DecidableEq

/-- The `file` payload of a workspace file chunk. -/
structure FileInfo where
  pathName : Option String := none
deriving DecidableEq

/-- One element of `workspace_file_chunks`. -/
structure Chunk where
  file : Option FileInfo := none
deriving DecidableEq

/-- One raw chat turn (`chat_item`), with the fields the parser reads.
Fields are `Option`al to model `dict.get` defaults; their payload types
are the ones the stores actually hold. -/
structure ChatItem where
  request_id : Option String := none
  timestamp : Option String := none
  request_message : Option String := none
  response_text : Option String := none
  rich_text_json_repr : Option String := none
  structured_output_nodes : Option (List OutputNode) := none
  structured_request_nodes : Option (List RequestNode) := none
  workspace_file_chunks : Option (List Chunk) := none
  toolUseStates : Option (List (String × ToolState)) := none
deriving DecidableEq

/-- The `ToolUse` dataclass of `conversation_parser.py`. -/
structure ToolUse where
  tool_name : String
  tool_use_id : String
  input_json : String
  result : Option String := none
  is_error : Bool := false
deriving DecidableEq

/-- The `Message` dataclass of `conversation_parser.py`. -/
structure Message where
  role : String
  content : String
  timestamp : PyTime
  request_id : String
  tool_uses : List ToolUse := []
  rich_text_content : Option String := none
  workspace_files : List String := []
deriving DecidableEq

/-- The `Conversation` dataclass of `conversation_parser.py`. -/
structure Conversation where
  id : String
  created_at : PyTime
  last_interacted_at : PyTime
  messages : List Message := []
  is_pinned : Bool := false
  is_shareable : Bool := false
deriving DecidableEq

/-- The `AugmentMessage` dataclass of `augment_extractor.py`. -/
structure AugmentMessage where
  role : String
  content : String
  timestamp : PyTime
  request_id : String
deriving DecidableEq

/-- The `AugmentConversation` dataclass of `augment_extractor.py`. -/
structure AugmentConversation where
  id : String
  created_at : PyTime
  last_interacted_at : PyTime
  messages : List AugmentMessage
  is_pinned : Bool := false
  is_shareable : Bool := false
  workspace_id : Option String := none
deriving DecidableEq

/-- Python `.startswith('\x7b')` on a string: its first character is an
opening brace. -/
def startsWithBrace (s : String) : Bool :=
  match s.toList with
  | c :: _ => c = Char.ofNat 123
  | [] => false

/-- Model of `content_data.get('type') == 'mermaid_diagram'`: Python `==` between a
decoded value and a `str` holds only for an equal string. -/
def isMermaidType (fields : List (String × JVal)) : Bool :=
  match pyDictGet fields "type" with
  | some (.str t) => t = "mermaid_diagram"
  | _ => false

/-- Model of `ConversationParser._process_mermaid_node`.  A non-string
`diagram_definition` makes the Python `+` concatenation raise `TypeError`,
which the method's own `except` turns into `""`. -/
def processMermaidNode (d : List (String × JVal)) : String :=
  let dd := (pyDictGet d "diagram_definition").getD (.str "")
  let title := (pyDictGet d "title").getD (.str "")
  if jvalFalsy dd then ""
  else
    match dd with
    | .str s =>
        let block := "```mermaid\n" ++ s ++ "\n```"
        if jvalFalsy title then block
        else "**" ++ pyStr title ++ "**\n\n" ++ block
    | _ => ""

/-- Contribution of one `structured_output_nodes` element inside
`_extract_structured_content`.  `.error ()` models the one uncaught
exception: a `render-mermaid` input that decodes to a non-dict, whose
`.get` raises `AttributeError` past the `(JSONDecodeError, TypeError)`
handler. -/
def processOutputNode (node : OutputNode) : Except Unit (Option String) :=
  let nodeContent := node.content.getD ""
  if node.type = some 0 then
    if nodeContent ≠ "" ∧ pyStrip nodeContent ≠ "" then
      if startsWithBrace (pyStrip nodeContent) then
        match jsonParse nodeContent with
        | some (.obj fields) =>
            if isMermaidType fields then
              let m := processMermaidNode fields
              if m ≠ "" then .ok (some m) else .ok (some (pyStrip nodeContent))
            else .ok (some (pyStrip nodeContent))
        | some _ => .ok (some (pyStrip nodeContent))
        | none => .ok (some (pyStrip nodeContent))
      else .ok (some (pyStrip nodeContent))
    else .ok none
  else if node.type = some 5 then
    let tu := node.tool_use.getD {}
    if tu.tool_name.getD "" = "render-mermaid" then
      let inputJson := tu.input_json.getD ""
      if inputJson ≠ "" then
        match jsonParse inputJson with
        | some (.obj inputFields) =>
            let mermaidData : List (String × JVal) :=
              [("type", .str "mermaid_diagram"),
               ("diagram_definition", (pyDictGet inputFields "diagram_definition").getD (.str "")),
               ("title", (pyDictGet inputFields "title").getD (.str ""))]
            let m := processMermaidNode mermaidData
            if m ≠ "" then .ok (some m) else .ok none
        | some _ => .error ()
        | none => .ok none
      else .ok none
    else .ok none
  else
    if nodeContent ≠ "" then
      match jsonParse nodeContent with
      | some (.obj fields) =>
          if isMermaidType fields then
            let m := processMermaidNode fields
            if m ≠ "" then .ok (some m)
            else if pyStrip nodeContent ≠ "" then .ok (some (pyStrip nodeContent)) else .ok none
          else if pyStrip nodeContent ≠ "" then .ok (some (pyStrip nodeContent)) else .ok none
      | some _ => if pyStrip nodeContent ≠ "" then .ok (some (pyStrip nodeContent)) else .ok none
      | none => if pyStrip nodeContent ≠ "" then .ok (some (pyStrip nodeContent)) else .ok none
    else .ok none

/-- Contribution of one `structured_request_nodes` element: only a
`tool_result_node` whose content decodes to a mermaid-diagram payload
with a rendered block is appended. -/
def processRequestNode (node : RequestNode) : Option String :=
  if node.type.getD 0 = 1 then
    let trn := node.tool_result_node.getD {}
    let content := trn.content.getD ""
    if content ≠ "" then
      match jsonParse content with
      | some (.obj fields) =>
          if isMermaidType fields then
            let m := processMermaidNode fields
            if m ≠ "" then some m else none
          else none
      | _ => none
    else none
  else none

/-- Sort key `node.get('id', 0)` used for structured output nodes. -/
def nodeId (n : OutputNode) : Int :=
  n.id.getD 0

/-- Comparison used by `sorted(output_nodes, key=lambda x: x.get('id', 0))`. -/
def nodeLe (a b : OutputNode) : Prop :=
  nodeId a ≤ nodeId b

instance : DecidableRel nodeLe :=
  fun a b => inferInstanceAs (Decidable (nodeId a ≤ nodeId b))

instance : IsTotal OutputNode nodeLe :=
  ⟨fun a b => le_total (nodeId a) (nodeId b)⟩

instance : IsTrans OutputNode nodeLe :=
  ⟨fun _ _ _ h1 h2 => le_trans h1 h2⟩

/-- The sequential `for node in sorted_nodes:` loop, threading the
possible uncaught exception. -/
def collectOutputParts : List OutputNode → Except Unit (List String)
  | [] => .ok []
  | n :: rest =>
      match processOutputNode n with
      | .error e => .error e
      | .ok p =>
          match collectOutputParts rest with
          | .error e => .error e
          | .ok ps => .ok (match p with | some s => s :: ps | none => ps)

/-- Body of `ConversationParser._extract_structured_content` before its
outer `except` handler: structured output nodes are sorted by position id
(Python `sorted` is stable, as is `List.insertionSort`), then request-side
tool results are scanned, and the parts are joined by blank lines. -/
def extractStructuredContentE (item : ChatItem) : Except Unit String :=
  let sortedNodes := List.insertionSort nodeLe (item.structured_output_nodes.getD [])
  match collectOutputParts sortedNodes with
  | .error e => .error e
  | .ok outParts =>
      let reqParts := (item.structured_request_nodes.getD []).filterMap processRequestNode
      .ok (pyJoin "\n\n" (outParts ++ reqParts))

/-- Model of `ConversationParser._extract_structured_content`: the outer
`except Exception` turns any escaped error into `""`. -/
def extractStructuredContent (item : ChatItem) : String :=
  match extractStructuredContentE item with
  | .ok s => s
  | .error _ => ""

/-- Model of `ConversationParser._merge_message_content`. -/
def mergeMessageContent (responseText structuredContent : String) : String :=
  let rt := pyStrip responseText
  let sc := pyStrip structuredContent
  if rt = "" ∧ sc = "" then ""
  else if rt = "" then sc
  else if sc = "" then rt
  else if substr rt sc then sc
  else if substr sc rt then rt
  else pyJoin "\n\n" [rt, sc]

/-- f-string rendering of `chat_item.get('request_id')`, which is the
string `"None"` when the key is absent. -/
def optStr : Option String → String
  | some s => s
  | none => "None"

/-- First loop of `_extract_tool_uses`: collect every type-5 node that has
a `tool_use` payload. -/
def rawToolUses (item : ChatItem) : List ToolUse :=
  (item.structured_output_nodes.getD []).filterMap fun n =>
    match n.type, n.tool_use with
    | some 5, some tu =>
        some { tool_name := tu.tool_name.getD "",
               tool_use_id := tu.tool_use_id.getD "",
               input_json := tu.input_json.getD "" }
    | _, _ => none

/-- Second loop of `_extract_tool_uses`: fill in result text and error
flag from `toolUseStates` under the composite key. -/
def correlateToolUse (item : ChatItem) (tu : ToolUse) : ToolUse :=
  let key := optStr item.request_id ++ ";" ++ tu.tool_use_id
  match pyDictGet (item.toolUseStates.getD []) key with
  | some st =>
      let res := st.result.getD {}
      { tu with result := some (res.text.getD ""), is_error := res.isError.getD false }
  | none => tu

/-- Model of `ConversationParser._extract_tool_uses`. -/
def extractToolUses (item : ChatItem) : List ToolUse :=
  (rawToolUses item).map (correlateToolUse item)

/-- Model of `ConversationParser._extract_workspace_files`. -/
def extractWorkspaceFiles (item : ChatItem) : List String :=
  (item.workspace_file_chunks.getD []).filterMap fun ch =>
    match (ch.file.getD {}).pathName with
    | some p => if p ≠ "" then some p else none
    | none => none

/-- Model of `ConversationParser._parse_message`.  Both messages are built, but the
method ends with `return messages[0] if messages else None`, so at most
the first one ever leaves it. -/
def parseMessage (item : ChatItem) : Option Message :=
  let requestId := item.request_id.getD ""
  let timestamp := parseDatetime item.timestamp
  let userMessage := item.request_message.getD ""
  let assistantMessage := item.response_text.getD ""
  let userMsgs : List Message :=
    if pyStrip userMessage ≠ "" then
      [{ role := "user", content := pyStrip userMessage, timestamp,
         request_id := requestId,
         rich_text_content := item.rich_text_json_repr,
         workspace_files := extractWorkspaceFiles item }]
    else []
  let assistantMsgs : List Message :=
    if pyStrip assistantMessage ≠ "" ∨ item.structured_output_nodes.getD [] ≠ [] then
      let structuredContent := extractStructuredContent item
      let completeContent := mergeMessageContent assistantMessage structuredContent
      if pyStrip completeContent ≠ "" then
        [{ role := "assistant", content := completeContent, timestamp,
           request_id := requestId, tool_uses := extractToolUses item }]
      else []
    else []
  (userMsgs ++ assistantMsgs).head?

/-- Per-turn message construction of
`CursorAugmentExtractor._parse_conversation` (lines 277-317): unlike
`_parse_message` it appends the user and the assistant message
separately, so a turn can yield both. -/
def cursorParseTurnMessages (item : ChatItem) : List AugmentMessage :=
  let timestamp := parseDatetime item.timestamp
  let requestId := item.request_id.getD ""
  let userMessage := pyStrip (item.request_message.getD "")
  let userPart : List AugmentMessage :=
    if userMessage ≠ "" then
      [{ role := "user", content := userMessage, timestamp, request_id := requestId }]
    else []
  let assistantMessage := pyStrip (item.response_text.getD "")
  let completeContent := mergeMessageContent assistantMessage (extractStructuredContent item)
  let assistantPart : List AugmentMessage :=
    if pyStrip completeContent ≠ "" then
      [{ role := "assistant", content := completeContent, timestamp, request_id := requestId }]
    else []
  userPart ++ assistantPart

/-- Header and history fields of one conversation record. -/
structure ConvData where
  createdAtIso : Option String := none
  lastInteractedAtIso : Option String := none
  isPinned : Option Bool := none
  isShareable : Option Bool := none
  chatHistory : Option (List ChatItem) := none
deriving DecidableEq

/-- A conversation record as stored: either a dict or some other value
(e.g. a bare string or number), on which the first attribute access
raises inside `_parse_single_conversation` and is caught there. -/
inductive ConvVal where
  | dict : ConvData → ConvVal
  | notDict : ConvVal
deriving DecidableEq

/-- Model of `ConversationParser._parse_single_conversation`: header parsing with
false defaults for the flags, then one `Message` at most per turn via
`_parse_message`; a record that is not a dict raises and yields `None`. -/
def parseSingleConversation (convId : String) (d : ConvVal) : Option Conversation :=
  match d with
  | .notDict => none
  | .dict c =>
      some { id := convId,
             created_at := parseDatetime c.createdAtIso,
             last_interacted_at := parseDatetime c.lastInteractedAtIso,
             is_pinned := c.isPinned.getD false,
             is_shareable := c.isShareable.getD false,
             messages := (c.chatHistory.getD []).filterMap parseMessage }

/-- The record loop of `ConversationParser.parse_conversations`: keep a
conversation only when parsing succeeded and it has at least one message;
a record that raises is logged and skipped. -/
def parseConversationsFromMap (convs : List (String × ConvVal)) : List Conversation :=
  convs.filterMap fun p =>
    match parseSingleConversation p.1 p.2 with
    | some c => if c.messages ≠ [] then some c else none
    | none => none

/-- Decoded `webviewState` document. -/
structure WState where
  conversations : List (String × ConvVal) := []
deriving DecidableEq

/-- The `parsed_data` value of the main chat key. -/
structure ParsedDoc where
  webviewState : Option WState := none
deriving DecidableEq

/-- One record of the raw data handed to `parse_conversations`. -/
structure KeyData where
  parsed_data : Option ParsedDoc := none
deriving DecidableEq

/-- The well-known key holding the chat data. -/
def mainChatKey : String :=
  "memento/webviewView.augment-chat"

/-- Model of `ConversationParser.parse_conversations`: locate the main chat key,
descend into `parsed_data` and `webviewState`, then run the record loop. -/
def parseConversations (raw : List (String × KeyData)) : List Conversation :=
  match pyDictGet raw mainChatKey with
  | none => []
  | some chatData =>
      match chatData.parsed_data with
      | none => []
      | some pd =>
          match pd.webviewState with
          | none => []
          | some ws => parseConversationsFromMap ws.conversations

/-- The record loop of `IdeaAugmentExtractor.extract_augment_conversations`
(lines 327-332): it guards only `if parsed_conv:` and, unlike the VSCode
and Cursor loops, does not require a nonempty message list. -/
def ideaCollectConversations (convs : List (String × ConvVal)) : List Conversation :=
  convs.filterMap fun p => parseSingleConversation p.1 p.2

/-- Model of `CursorAugmentExtractor._parse_conversation`: both per-turn messages
are appended, `isShareable` defaults to `True` here (line 329). -/
def cursorParseConversation (convId : String) (d : ConvVal)
    (workspaceId : Option String) : Option AugmentConversation :=
  match d with
  | .notDict => none
  | .dict c =>
      some { id := convId,
             created_at := parseDatetime c.createdAtIso,
             last_interacted_at := parseDatetime c.lastInteractedAtIso,
             messages := ((c.chatHistory.getD []).map cursorParseTurnMessages).flatten,
             is_pinned := c.isPinned.getD false,
             is_shareable := c.isShareable.getD true,
             workspace_id := workspaceId }

/-- The record loop of
`CursorAugmentExtractor._extract_conversations_from_database` (lines
230-243): keep a conversation only when it has at least one message. -/
def cursorCollectConversations (convs : List (String × ConvVal))
    (workspaceId : Option String) : List AugmentConversation :=
  convs.filterMap fun p =>
    match cursorParseConversation p.1 p.2 workspaceId with
    | some c => if c.messages ≠ [] then some c else none
    | none => none

/-- Result of `AugmentDataExtractor._parse_json_value` on a text value:
Python `None`, the raw string, or a decoded document. -/
inductive PyResult where
  | pyNone : PyResult
  | asStr : String → PyResult
  | asJson : JVal → PyResult

/-- Model of `AugmentDataExtractor._parse_json_value` on string input (the `bytes`
branch decodes UTF-8 first and is outside every claim): a falsy (empty)
value returns `None`; a failed top-level decode returns the raw string; a
decoded dict with a string `webviewState` field gets that one field
decoded in place, keeping the original string when the inner decode
fails. -/
def parseJsonValue (value : String) : PyResult :=
  if value = "" then .pyNone
  else
    match jsonParse value with
    | none => .asStr value
    | some (.obj fields) =>
        match pyDictGet fields "webviewState" with
        | some (.str inner) =>
            match jsonParse inner with
            | some innerVal => .asJson (.obj (dictInsert fields "webviewState" innerVal))
            | none => .asJson (.obj fields)
        | _ => .asJson (.obj fields)
    | some parsed => .asJson parsed

/-! ### Helper lemmas -/

theorem dropWhile_dropWhile_self {α : Type} (p : α → Bool) (l : List α) :
    (l.dropWhile p).dropWhile p = l.dropWhile p := by
  induction l with
  | nil => rfl
  | cons a t ih =>
      by_cases h : p a
      · simp [List.dropWhile_cons, h, ih]
      · simp [List.dropWhile_cons, h]

theorem dropWhile_append_singleton {α : Type} (p : α → Bool) (xs : List α) (a : α)
    (h : p a = false) : (xs ++ [a]).dropWhile p = xs.dropWhile p ++ [a] := by
  rw [List.dropWhile_append]
  by_cases he : (xs.dropWhile p).isEmpty
  · simp_all [List.dropWhile_cons, h]
  · simp [he]

theorem head_dropWhile_false {α : Type} (p : α → Bool) (l : List α) (a : α) (t : List α)
    (h : l.dropWhile p = a :: t) : p a = false := by
  induction l with
  | nil => simp [List.dropWhile] at h
  | cons b u ih =>
      rw [List.dropWhile_cons] at h
      by_cases hb : p b
      · simp only [hb, if_true] at h
        exact ih h
      · simp only [hb, if_false] at h
        cases h
        simpa using hb

theorem stripChars_front_stripped (l : List Char) :
    (stripChars l).dropWhile isPySpace = stripChars l := by
  unfold stripChars
  cases hfront : l.dropWhile isPySpace with
  | nil => simp
  | cons a t =>
      have ha : isPySpace a = false := head_dropWhile_false isPySpace l a t hfront
      rw [List.reverse_cons, dropWhile_append_singleton isPySpace t.reverse a ha,
        List.reverse_append]
      simp [List.dropWhile_cons, ha]

theorem stripChars_idem (l : List Char) : stripChars (stripChars l) = stripChars l := by
  have h1 : (stripChars l).dropWhile isPySpace = stripChars l := stripChars_front_stripped l
  show ((((stripChars l).dropWhile isPySpace).reverse).dropWhile isPySpace).reverse = _
  rw [h1]
  have h2 : (stripChars l).reverse = ((l.dropWhile isPySpace).reverse).dropWhile isPySpace := by
    unfold stripChars
    rw [List.reverse_reverse]
  rw [h2, dropWhile_dropWhile_self]
  rfl

theorem string_toList_inj {a b : String} (h : a.toList = b.toList) : a = b := by
  cases a
  cases b
  exact congrArg String.mk h

theorem toList_mk (l : List Char) : (String.mk l).toList = l := rfl

theorem toList_append (a b : String) : (a ++ b).toList = a.toList ++ b.toList :=
  String.data_append a b

theorem pyStrip_idem (s : String) : pyStrip (pyStrip s) = pyStrip s := by
  unfold pyStrip
  rw [toList_mk, stripChars_idem]

theorem toList_empty_iff (s : String) : s.toList = [] ↔ s = "" := by
  constructor
  · intro h
    exact string_toList_inj h
  · intro h
    rw [h]
    rfl

theorem substr_antisymm {a b : String} (h1 : substr a b) (h2 : substr b a) : a = b :=
  string_toList_inj (List.Sublist.antisymm h1.sublist h2.sublist)

theorem substr_empty_iff (a : String) : substr a "" ↔ a = "" := by
  unfold substr
  rw [show ("" : String).toList = [] from rfl, List.infix_nil, toList_empty_iff]

theorem empty_substr (b : String) : substr "" b := by
  unfold substr
  exact List.nil_infix

theorem substr_of_mem_pyJoin (sep s : String) (parts : List String) (h : s ∈ parts) :
    substr s (pyJoin sep parts) := by
  induction parts with
  | nil => cases h
  | cons a rest ih =>
      cases rest with
      | nil =>
          have hs : s = a := by simpa using h
          subst hs
          exact List.infix_refl s.toList
      | cons b u =>
          rcases List.mem_cons.mp h with heq | hmem
          · subst heq
            show s.toList <:+: (s ++ sep ++ pyJoin sep (b :: u)).toList
            rw [toList_append, toList_append]
            exact ⟨[], sep.toList ++ (pyJoin sep (b :: u)).toList, by simp⟩
          · have htail := ih hmem
            have hsuf : (pyJoin sep (b :: u)).toList <:+:
                (a ++ sep ++ pyJoin sep (b :: u)).toList := by
              rw [toList_append, toList_append]
              exact ⟨a.toList ++ sep.toList, [], by simp⟩
            exact htail.trans hsuf

theorem append3_ne_empty (pre s post : String) (h : pre.toList ≠ []) :
    pre ++ s ++ post ≠ "" := by
  intro hc
  apply h
  have := congrArg String.toList hc
  rw [toList_append, toList_append] at this
  rcases List.append_eq_nil.mp this with ⟨h1, _⟩
  exact List.append_eq_nil.mp h1 |>.1

/-! ### C2: channel merge cases -/

/-- C2: for all inputs, considered after trimming, the channel merge
returns the empty string when both sides are empty, the other side when
exactly one is empty, the structured content alone when it contains the
plain text as a substring, the plain text alone when it contains the
structured content, and otherwise the plain text, a blank line, and the
structured content. -/
theorem merge_dedup_cases (responseText structuredContent : String) :
    (pyStrip responseText = "" → pyStrip structuredContent = "" →
      mergeMessageContent responseText structuredContent = "") ∧
    (pyStrip responseText = "" → pyStrip structuredContent ≠ "" →
      mergeMessageContent responseText structuredContent = pyStrip structuredContent) ∧
    (pyStrip responseText ≠ "" → pyStrip structuredContent = "" →
      mergeMessageContent responseText structuredContent = pyStrip responseText) ∧
    (substr (pyStrip responseText) (pyStrip structuredContent) →
      mergeMessageContent responseText structuredContent = pyStrip structuredContent) ∧
    (substr (pyStrip structuredContent) (pyStrip responseText) →
      mergeMessageContent responseText structuredContent = pyStrip responseText) ∧
    (¬ substr (pyStrip responseText) (pyStrip structuredContent) →
     ¬ substr (pyStrip structuredContent) (pyStrip responseText) →
      mergeMessageContent responseText structuredContent
        = pyStrip responseText ++ "\n\n" ++ pyStrip structuredContent) := by
  refine ⟨?_, ?_, ?_, ?_, ?_, ?_⟩
  · intro hp hs
    simp [mergeMessageContent, hp, hs]
  · intro hp hs
    simp [mergeMessageContent, hp, hs]
  · intro hp hs
    simp [mergeMessageContent, hp, hs]
  · intro hsub
    by_cases hp : pyStrip responseText = ""
    · by_cases hs : pyStrip structuredContent = ""
      · simp [mergeMessageContent, hp, hs]
      · simp [mergeMessageContent, hp, hs]
    · have hs : pyStrip structuredContent ≠ "" := by
        intro h0
        rw [h0] at hsub
        exact hp ((substr_empty_iff _).mp hsub)
      simp [mergeMessageContent, hp, hs, hsub]
  · intro hsub
    by_cases hs : pyStrip structuredContent = ""
    · by_cases hp : pyStrip responseText = ""
      · simp [mergeMessageContent, hp, hs]
      · simp [mergeMessageContent, hp, hs]
    · have hp : pyStrip responseText ≠ "" := by
        intro h0
        rw [h0] at hsub
        exact hs ((substr_empty_iff _).mp hsub)
      by_cases hps : substr (pyStrip responseText) (pyStrip structuredContent)
      · have heq : pyStrip responseText = pyStrip structuredContent :=
          substr_antisymm hps hsub
        have hss : substr (pyStrip structuredContent) (pyStrip structuredContent) :=
          List.infix_refl _
        simp [mergeMessageContent, hp, hs, heq, hss]
      · simp [mergeMessageContent, hp, hs, hps, hsub]
  · intro h1 h2
    have hp : pyStrip responseText ≠ "" := by
      intro h0
      rw [h0] at h1
      exact h1 (empty_substr _)
    have hs : pyStrip structuredContent ≠ "" := by
      intro h0
      rw [h0] at h2
      exact h2 (empty_substr _)
    simp [mergeMessageContent, hp, hs, h1, h2, pyJoin]

/-- Witness for C2 at the spec scenario: `"Done."` is a substring of
`"Done. See patch."`, so the merge keeps the structured content alone. -/
theorem merge_dedup_cases_witness :
    substr (pyStrip "Done.") (pyStrip "Done. See patch.") ∧
    mergeMessageContent "Done." "Done. See patch." = "Done. See patch." := by
  refine ⟨by decide, ?_⟩
  have h := (merge_dedup_cases "Done." "Done. See patch.").2.2.2.1 (by decide)
  rw [h]
  decide

/-! ### C3: fragment order -/

theorem insertionSort_eq_of_perm (nodes nodesB : List OutputNode)
    (hperm : nodes.Perm nodesB)
    (hids : nodes.Pairwise (fun a b => nodeId a ≠ nodeId b)) :
    List.insertionSort nodeLe nodes = List.insertionSort nodeLe nodesB := by
  have hsymm : ∀ {x y : OutputNode}, nodeId x ≠ nodeId y → nodeId y ≠ nodeId x :=
    fun h he => h he.symm
  have hp1 : (List.insertionSort nodeLe nodes).Perm nodes :=
    List.perm_insertionSort _ _
  have hp2 : (List.insertionSort nodeLe nodesB).Perm nodesB :=
    List.perm_insertionSort _ _
  have hids1 : (List.insertionSort nodeLe nodes).Pairwise
      (fun a b => nodeId a ≠ nodeId b) :=
    (hp1.pairwise_iff hsymm).mpr hids
  have hids2 : (List.insertionSort nodeLe nodesB).Pairwise
      (fun a b => nodeId a ≠ nodeId b) :=
    (hp2.pairwise_iff hsymm).mpr ((hperm.pairwise_iff hsymm).mp hids)
  have hs1 := List.sorted_insertionSort nodeLe nodes
  have hs2 := List.sorted_insertionSort nodeLe nodesB
  have hstrict1 : (List.insertionSort nodeLe nodes).Pairwise
      (fun a b => nodeId a < nodeId b) :=
    (List.Pairwise.and hs1 hids1).imp fun h => lt_of_le_of_ne h.1 h.2
  have hstrict2 : (List.insertionSort nodeLe nodesB).Pairwise
      (fun a b => nodeId a < nodeId b) :=
    (List.Pairwise.and hs2 hids2).imp fun h => lt_of_le_of_ne h.1 h.2
  haveI : IsAntisymm OutputNode (fun a b => nodeId a < nodeId b) :=
    ⟨fun _ _ h1 h2 => absurd h1 (lt_asymm h2)⟩
  exact List.eq_of_perm_of_sorted (hp1.trans (hperm.trans hp2.symm)) hstrict1 hstrict2

/-- C3 (amended): when the position ids of the structured fragments are
pairwise distinct, assembling the structured content from any permutation
of the fragment list yields the same string — in particular the same
string as from the id-sorted list.  (With duplicate ids the stable sort
preserves the stored order, so the output depends on it; see the
counterexample.) -/
theorem structured_order_independent (item : ChatItem)
    (nodes nodesB : List OutputNode)
    (hperm : nodes.Perm nodesB)
    (hids : nodes.Pairwise (fun a b => nodeId a ≠ nodeId b)) :
    extractStructuredContent { item with structured_output_nodes := some nodes }
      = extractStructuredContent { item with structured_output_nodes := some nodesB } := by
  have hsort := insertionSort_eq_of_perm nodes nodesB hperm hids
  simp [extractStructuredContent, extractStructuredContentE, hsort]

def dupA : OutputNode := { id := some 1, type := some 0, content := some "a" }

def dupB : OutputNode := { id := some 1, type := some 0, content := some "b" }

def dupItemBA : ChatItem := { structured_output_nodes := some [dupB, dupA] }

def dupItemSorted : ChatItem :=
  { structured_output_nodes := some (List.insertionSort nodeLe [dupA, dupB]) }

/-- Counterexample to C3 as stated: `[dupB, dupA]` is a permutation of
`[dupA, dupB]` in which each fragment keeps its position id (both ids are
1), yet assembling it gives `"b\n\na"` while the id-sorted original list
gives `"a\n\nb"` — with duplicate ids the output depends on the stored
order. -/
theorem structured_order_counterexample :
    [dupB, dupA].Perm [dupA, dupB] ∧
    extractStructuredContent dupItemBA ≠ extractStructuredContent dupItemSorted := by
  refine ⟨by decide, by decide⟩

def wNodeA : OutputNode := { id := some 2, type := some 0, content := some "second" }

def wNodeB : OutputNode := { id := some 1, type := some 0, content := some "first" }

/-- Witness for C3 (amended) on two fragments with distinct ids. -/
theorem structured_order_independent_witness :
    [wNodeA, wNodeB].Pairwise (fun a b => nodeId a ≠ nodeId b) ∧
    extractStructuredContent { structured_output_nodes := some [wNodeA, wNodeB] }
      = extractStructuredContent { structured_output_nodes := some [wNodeB, wNodeA] } :=
  ⟨by decide, structured_order_independent {} [wNodeA, wNodeB] [wNodeB, wNodeA]
    (by decide) (by decide)⟩

/-! ### C4: diagram rendering from tool invocations -/

theorem empty_append_str (s : String) : "" ++ s = s := by
  apply string_toList_inj
  rw [toList_append]
  rfl

theorem append_ne_left (a b : String) (h : a ≠ "") : a ++ b ≠ "" := by
  intro hc
  apply h
  have := congrArg String.toList hc
  rw [toList_append] at this
  exact (toList_empty_iff a).mp (List.append_eq_nil.mp this).1

theorem collect_mem_parts (l : List OutputNode) (parts : List String)
    (h : collectOutputParts l = .ok parts) :
    ∀ n ∈ l, ∀ s, processOutputNode n = .ok (some s) → s ∈ parts := by
  induction l generalizing parts with
  | nil => intro n hn; cases hn
  | cons a t ih =>
      intro n hn s hs
      cases hpa : processOutputNode a with
      | error e => simp [collectOutputParts, hpa] at h
      | ok p =>
          cases hct : collectOutputParts t with
          | error e => simp [collectOutputParts, hpa, hct] at h
          | ok ps =>
              simp only [collectOutputParts, hpa, hct] at h
              rcases List.mem_cons.mp hn with heq | hmem
              · subst heq
                rw [hpa] at hs
                cases hs
                cases h
                exact List.mem_cons_self _ _
              · have hmemps : s ∈ ps := ih ps hct n hmem s hs
                cases h
                cases p with
                | none => exact hmemps
                | some q => exact List.mem_cons_of_mem _ hmemps

/-- C4 (amended): a type-5 fragment naming `render-mermaid` whose
`input_json` decodes to an object with a non-empty string
`diagram_definition` contributes a fenced mermaid block, preceded by the
bold title when a truthy title is present, and that block occurs in the
assembled structured content — provided extraction does not abort
(`extractStructuredContentE` returns `.ok`; a sibling `render-mermaid`
fragment whose input decodes to a non-object raises and empties the
whole content, see the counterexample).  A type-5 fragment naming any
other tool contributes nothing. -/
theorem mermaid_tool_rendered (item : ChatItem) (node : OutputNode)
    (tu : ToolUseData) (fields : List (String × JVal)) (dd : String) (out : String)
    (hmem : node ∈ item.structured_output_nodes.getD [])
    (htype : node.type = some 5)
    (htu : node.tool_use = some tu)
    (hname : tu.tool_name.getD "" = "render-mermaid")
    (hjson : jsonParse (tu.input_json.getD "") = some (.obj fields))
    (hdd : pyDictGet fields "diagram_definition" = some (.str dd))
    (hdd0 : dd ≠ "")
    (hok : extractStructuredContentE item = .ok out) :
    substr (if jvalFalsy ((pyDictGet fields "title").getD (.str "")) then
              "```mermaid\n" ++ dd ++ "\n```"
            else "**" ++ pyStr ((pyDictGet fields "title").getD (.str "")) ++ "**\n\n" ++
              ("```mermaid\n" ++ dd ++ "\n```")) out
    ∧ ∀ (n : OutputNode) (tun : ToolUseData), n.type = some 5 → n.tool_use = some tun →
        tun.tool_name.getD "" ≠ "render-mermaid" → processOutputNode n = .ok none := by
  have hinput : tu.input_json.getD "" ≠ "" := by
    intro h0
    rw [h0] at hjson
    have hnil : jsonParse "" = none := rfl
    rw [hnil] at hjson
    exact Option.noConfusion hjson
  have hm : processMermaidNode
      [("type", .str "mermaid_diagram"), ("diagram_definition", .str dd),
       ("title", (pyDictGet fields "title").getD (.str ""))]
      = (if jvalFalsy ((pyDictGet fields "title").getD (.str "")) then
           "```mermaid\n" ++ dd ++ "\n```"
         else "**" ++ pyStr ((pyDictGet fields "title").getD (.str "")) ++ "**\n\n" ++
           ("```mermaid\n" ++ dd ++ "\n```")) := by
    have h1 : jvalFalsy (JVal.str dd) = false := by
      simp [jvalFalsy, hdd0]
    simp [processMermaidNode, pyDictGet, h1]
  have hblock_ne : ("```mermaid\n" ++ dd ++ "\n```") ≠ "" := by
    apply append_ne_left
    apply append_ne_left
    decide
  have hm_ne : processMermaidNode
      [("type", .str "mermaid_diagram"), ("diagram_definition", .str dd),
       ("title", (pyDictGet fields "title").getD (.str ""))] ≠ "" := by
    rw [hm]
    by_cases hft : jvalFalsy ((pyDictGet fields "title").getD (.str ""))
    · simpa [hft] using hblock_ne
    · simp only [hft, if_false]
      apply append_ne_left
      apply append_ne_left
      apply append_ne_left
      decide
  have hproc : processOutputNode node =
      .ok (some (processMermaidNode
        [("type", .str "mermaid_diagram"), ("diagram_definition", .str dd),
         ("title", (pyDictGet fields "title").getD (.str ""))])) := by
    simp [processOutputNode, htype, htu, hname, hinput, hjson, hdd, hm_ne]
  constructor
  · cases hc : collectOutputParts
        (List.insertionSort nodeLe (item.structured_output_nodes.getD [])) with
    | error e =>
        rw [extractStructuredContentE, hc] at hok
        exact Except.noConfusion hok
    | ok outParts =>
        rw [extractStructuredContentE, hc] at hok
        have hout : pyJoin "\n\n"
            (outParts ++ (item.structured_request_nodes.getD []).filterMap processRequestNode)
            = out := by
          cases hok
          rfl
        have hmem2 : node ∈ List.insertionSort nodeLe (item.structured_output_nodes.getD []) :=
          (List.mem_insertionSort nodeLe).mpr hmem
        have hmparts := collect_mem_parts _ outParts hc node hmem2 _ hproc
        have hmem3 := List.mem_append_left
          ((item.structured_request_nodes.getD []).filterMap processRequestNode) hmparts
        have hsub := substr_of_mem_pyJoin "\n\n" _ _ hmem3
        rw [hout] at hsub
        rw [hm] at hsub
        exact hsub
  · intro n tun htn htun hne
    simp [processOutputNode, htn, htun, hne]

def goodMermaidTU : ToolUseData :=
  { tool_name := some "render-mermaid",
    input_json := some "\x7b\"diagram_definition\":\"graph TD;A-->B;\",\"title\":\"Flow\"\x7d" }

def goodMermaidNode : OutputNode :=
  { id := some 1, type := some 5, tool_use := some goodMermaidTU }

def poisonMermaidNode : OutputNode :=
  { id := some 2, type := some 5,
    tool_use := some { tool_name := some "render-mermaid", input_json := some "5" } }

def poisonItem : ChatItem :=
  { structured_output_nodes := some [goodMermaidNode, poisonMermaidNode] }

/-- Counterexample to C4 as stated: `goodMermaidNode` satisfies every
condition of the claim, but its sibling `render-mermaid` fragment with
`input_json = "5"` decodes to a non-object, whose `.get` raises an
`AttributeError` past the `(JSONDecodeError, TypeError)` handler; the
outer handler then empties the whole structured content, so no mermaid
block is included. -/
theorem mermaid_tool_counterexample :
    extractStructuredContent poisonItem = "" ∧
    ¬ substr "```mermaid\ngraph TD;A-->B;\n```" (extractStructuredContent poisonItem) := by
  refine ⟨by decide, by decide⟩

def mermaidOnlyItem : ChatItem :=
  { structured_output_nodes := some [goodMermaidNode] }

/-- Witness for C4 (amended) at the spec scenario: the single
`render-mermaid` fragment yields the bold title followed by the fenced
block. -/
theorem mermaid_tool_rendered_witness :
    substr "**Flow**\n\n```mermaid\ngraph TD;A-->B;\n```"
      (extractStructuredContent mermaidOnlyItem) := by
  have h := (mermaid_tool_rendered mermaidOnlyItem goodMermaidNode goodMermaidTU
      [("diagram_definition", .str "graph TD;A-->B;"), ("title", .str "Flow")]
      "graph TD;A-->B;" (extractStructuredContent mermaidOnlyItem)
      (List.mem_cons_self _ _) rfl rfl rfl rfl rfl (by decide) rfl).1
  exact h

/-! ### C5: tool result correlation -/

theorem correlate_cases (item : ChatItem) (b : ToolUse)
    (hb : b.result = none ∧ b.is_error = false) :
    (correlateToolUse item b).tool_use_id = b.tool_use_id ∧
    (∀ st, pyDictGet (item.toolUseStates.getD [])
        (optStr item.request_id ++ ";" ++ b.tool_use_id) = some st →
      (correlateToolUse item b).result = some ((st.result.getD {}).text.getD "") ∧
      (correlateToolUse item b).is_error = (st.result.getD {}).isError.getD false) ∧
    (pyDictGet (item.toolUseStates.getD [])
        (optStr item.request_id ++ ";" ++ b.tool_use_id) = none →
      (correlateToolUse item b).result = none ∧
      (correlateToolUse item b).is_error = false) := by
  cases hluk : pyDictGet (item.toolUseStates.getD [])
      (optStr item.request_id ++ ";" ++ b.tool_use_id) with
  | some st0 =>
      refine ⟨?_, ?_, ?_⟩
      · simp [correlateToolUse, hluk]
      · intro st hst
        cases hst
        constructor
        · simp [correlateToolUse, hluk]
        · simp [correlateToolUse, hluk]
      · intro hcontra
        exact Option.noConfusion hcontra
  | none =>
      refine ⟨?_, ?_, ?_⟩
      · simp [correlateToolUse, hluk]
      · intro st hst
        exact Option.noConfusion hst
      · intro _
        constructor
        · simp [correlateToolUse, hluk, hb.1]
        · simp [correlateToolUse, hluk, hb.2]

/-- C5: every collected tool invocation is correlated against
`toolUseStates` under the composite key `request_id + ";" + tool_use_id`;
a matching entry sets the result text and error flag from its `result`
payload, and a correlation miss leaves the result empty and the error
flag false. -/
theorem toolUse_result_correlation (item : ChatItem) (rid : String) (tu : ToolUse)
    (hrid : item.request_id = some rid)
    (hmem : tu ∈ extractToolUses item) :
    (∀ st, pyDictGet (item.toolUseStates.getD [])
        (rid ++ ";" ++ tu.tool_use_id) = some st →
      tu.result = some ((st.result.getD {}).text.getD "") ∧
      tu.is_error = (st.result.getD {}).isError.getD false) ∧
    (pyDictGet (item.toolUseStates.getD [])
        (rid ++ ";" ++ tu.tool_use_id) = none →
      tu.result = none ∧ tu.is_error = false) := by
  rcases List.mem_map.mp hmem with ⟨b, hb_raw, hb_eq⟩
  have hbdef : b.result = none ∧ b.is_error = false := by
    rcases List.mem_filterMap.mp hb_raw with ⟨n, _, hn⟩
    split at hn
    · cases hn
      exact ⟨rfl, rfl⟩
    · exact Option.noConfusion hn
  have hkey : optStr item.request_id = rid := by
    rw [hrid]
    rfl
  rcases correlate_cases item b hbdef with ⟨hid, hsome, hnone⟩
  rw [hkey] at hsome hnone
  subst hb_eq
  rw [hid]
  exact ⟨hsome, hnone⟩

def corrState : ToolState :=
  { result := some { text := some "ok", isError := some false } }

def corrNode : OutputNode :=
  { id := some 1, type := some 5,
    tool_use := some { tool_name := some "grep", tool_use_id := some "abc" } }

def corrItem : ChatItem :=
  { request_id := some "r1",
    structured_output_nodes := some [corrNode],
    toolUseStates := some [("r1;abc", corrState)] }

def corrTU : ToolUse :=
  { tool_name := "grep", tool_use_id := "abc", input_json := "",
    result := some "ok", is_error := false }

def missNode : OutputNode :=
  { id := some 1, type := some 5,
    tool_use := some { tool_name := some "grep", tool_use_id := some "zzz" } }

def missItem : ChatItem :=
  { request_id := some "r1",
    structured_output_nodes := some [missNode],
    toolUseStates := some [("r1;abc", corrState)] }

def missTU : ToolUse :=
  { tool_name := "grep", tool_use_id := "zzz", input_json := "" }

/-- Witness for C5 at the spec scenario (`"r1;abc"` matched with result
`"ok"`) and at a correlation miss (`"zzz"` has no entry). -/
theorem toolUse_result_correlation_witness :
    (corrTU.result = some "ok" ∧ corrTU.is_error = false) ∧
    (missTU.result = none ∧ missTU.is_error = false) :=
  ⟨(toolUse_result_correlation corrItem "r1" corrTU rfl (by decide)).1 corrState (by decide),
   (toolUse_result_correlation missItem "r1" missTU rfl (by decide)).2 (by decide)⟩

/-! ### C1: per-turn user and assistant messages -/

def exNode : OutputNode :=
  { id := some 1, type := some 0, content := some "Done. See patch." }

def exTurn : ChatItem :=
  { request_message := some "fix bug", response_text := some "Done.",
    structured_output_nodes := some [exNode] }

/-- Counterexample to C1 as stated: on the `ConversationParser` path the
scenario turn (`request_message="fix bug"`, `response_text="Done."`, one
structured fragment `"Done. See patch."`) yields only the user message —
`_parse_message` builds both messages and then returns
`messages[0] if messages else None`, discarding the assistant one. -/
theorem turn_both_messages_counterexample :
    parseMessage exTurn = some
      { role := "user", content := "fix bug", timestamp := .now, request_id := "",
        tool_uses := [], rich_text_content := none, workspace_files := [] } := by
  decide

/-- C1 (amended): for a turn whose trimmed request text is non-empty and
whose assistant channels merge to non-empty content, the Cursor
extraction path emits both the user message and the assistant message
with the merged content, while `ConversationParser._parse_message`
returns only the first built message — the user one. -/
theorem turn_messages (item : ChatItem) (u c : String)
    (hu : pyStrip (item.request_message.getD "") = u)
    (hu0 : u ≠ "")
    (hc : mergeMessageContent (pyStrip (item.response_text.getD ""))
        (extractStructuredContent item) = c)
    (hc0 : pyStrip c ≠ "") :
    cursorParseTurnMessages item
      = [{ role := "user", content := u, timestamp := parseDatetime item.timestamp,
           request_id := item.request_id.getD "" },
         { role := "assistant", content := c, timestamp := parseDatetime item.timestamp,
           request_id := item.request_id.getD "" }]
    ∧ parseMessage item = some
        { role := "user", content := u, timestamp := parseDatetime item.timestamp,
          request_id := item.request_id.getD "",
          tool_uses := [], rich_text_content := item.rich_text_json_repr,
          workspace_files := extractWorkspaceFiles item } := by
  constructor
  · simp [cursorParseTurnMessages, hu, hu0, hc, hc0]
  · simp [parseMessage, hu, hu0]

/-- Witness for C1 (amended) at the spec scenario turn. -/
theorem turn_messages_witness :
    cursorParseTurnMessages exTurn
      = [{ role := "user", content := "fix bug", timestamp := .now, request_id := "" },
         { role := "assistant", content := "Done. See patch.", timestamp := .now,
           request_id := "" }] := by
  have h := (turn_messages exTurn "fix bug" "Done. See patch." rfl (by decide)
    (by decide) (by decide)).1
  exact h

/-! ### C6: empty chat history -/

def c6Data : ConvData := { chatHistory := some [] }

/-- C6 at the failing input: a record with an empty `chatHistory` is
rejected by the VSCode record loop and by the Cursor record loop, both of
which check `conversation.messages`, but the IDEA record loop checks only
`if parsed_conv:` and emits a `Conversation` with zero messages. -/
theorem empty_history_rejection :
    parseConversationsFromMap [("c1", ConvVal.dict c6Data)] = [] ∧
    cursorCollectConversations [("c1", ConvVal.dict c6Data)] none = [] ∧
    ideaCollectConversations [("c1", ConvVal.dict c6Data)]
      = [{ id := "c1", created_at := .now, last_interacted_at := .now, messages := [],
           is_pinned := false, is_shareable := false }] :=
  ⟨rfl, rfl, rfl⟩

/-! ### C7: non-fatal nested decode -/

/-- Counterexample to C7 as stated: the empty string is not valid JSON,
yet `_parse_json_value` returns `None` for it (`if not value`), not the
original string. -/
theorem nested_decode_counterexample :
    parseJsonValue "" = PyResult.pyNone ∧ parseJsonValue "" ≠ PyResult.asStr "" := by
  constructor
  · rfl
  · intro h
    cases h

/-- C7 (amended): every non-empty string that is not valid JSON is
returned unchanged (the empty string maps to `None` instead), and a
decoded dict whose string `webviewState` field fails the inner decode
keeps that field as the original string. -/
theorem nested_decode_nonfatal :
    (∀ s : String, s ≠ "" → jsonParse s = none → parseJsonValue s = .asStr s) ∧
    (∀ (s inner : String) (fields : List (String × JVal)),
      jsonParse s = some (.obj fields) →
      pyDictGet fields "webviewState" = some (.str inner) →
      jsonParse inner = none →
      parseJsonValue s = .asJson (.obj fields)) := by
  constructor
  · intro s hs hj
    simp [parseJsonValue, hs, hj]
  · intro s inner fields hj hw hi
    have hs : s ≠ "" := by
      intro h0
      rw [h0, show jsonParse "" = none from rfl] at hj
      exact Option.noConfusion hj
    simp [parseJsonValue, hs, hj, hw, hi]

/-- Witness for C7 (amended): a non-JSON string comes back unchanged, and
a dict with an undecodable `webviewState` string keeps it raw. -/
theorem nested_decode_nonfatal_witness :
    parseJsonValue "not json" = PyResult.asStr "not json" ∧
    parseJsonValue "\x7b\"webviewState\": \"oops\"\x7d"
      = PyResult.asJson (.obj [("webviewState", .str "oops")]) :=
  ⟨nested_decode_nonfatal.1 "not json" (by decide) rfl,
   nested_decode_nonfatal.2 "\x7b\"webviewState\": \"oops\"\x7d" "oops"
     [("webviewState", .str "oops")] rfl rfl rfl⟩

/-! ### C8: record isolation -/

theorem length_filterMap_eq {α β : Type} (f : α → Option β) (l : List α) :
    (l.filterMap f).length = (l.filter (fun a => (f a).isSome)).length := by
  induction l with
  | nil => rfl
  | cons a t ih =>
      cases hfa : f a <;> simp [List.filterMap_cons, List.filter_cons, hfa, ih]

theorem fromMap_eq_filterMap (recs : List (String × ConvVal))
    (h : recs.all (fun r => ((parseSingleConversation r.1 r.2).map
        (fun c => !c.messages.isEmpty)).getD true) = true) :
    parseConversationsFromMap recs
      = recs.filterMap (fun r => parseSingleConversation r.1 r.2) := by
  induction recs with
  | nil => rfl
  | cons r t ih =>
      have hr := (List.all_eq_true.mp h) r (List.mem_cons_self r t)
      have ht : t.all (fun r => ((parseSingleConversation r.1 r.2).map
          (fun c => !c.messages.isEmpty)).getD true) = true :=
        List.all_eq_true.mpr fun x hx =>
          (List.all_eq_true.mp h) x (List.mem_cons_of_mem r hx)
      cases hpr : parseSingleConversation r.1 r.2 with
      | none =>
          simp only [parseConversationsFromMap, List.filterMap_cons, hpr] at ih ⊢
          exact ih ht
      | some c =>
          have hmsg : c.messages ≠ [] := by
            rw [hpr] at hr
            intro hh
            simp [hh] at hr
          simp only [parseConversationsFromMap, List.filterMap_cons, hpr, hmsg,
            ne_eq, not_false_iff, if_pos]
          simp only [parseConversationsFromMap] at ih
          exact congrArg (c :: ·) (ih ht)

/-- C8: when every record either fails to parse or parses to a
conversation with at least one message, `parse_conversations` returns
exactly the conversations of the successfully parsed records — a
malformed record never prevents the processing of its siblings. -/
theorem record_isolation (recs : List (String × ConvVal))
    (h : recs.all (fun r => ((parseSingleConversation r.1 r.2).map
        (fun c => !c.messages.isEmpty)).getD true) = true) :
    parseConversations [(mainChatKey,
        { parsed_data := some { webviewState := some { conversations := recs } } })]
      = recs.filterMap (fun r => parseSingleConversation r.1 r.2) ∧
    (parseConversations [(mainChatKey,
        { parsed_data := some { webviewState := some { conversations := recs } } })]).length
      = (recs.filter (fun r => (parseSingleConversation r.1 r.2).isSome)).length := by
  have hred : parseConversations [(mainChatKey,
      { parsed_data := some { webviewState := some { conversations := recs } } })]
      = parseConversationsFromMap recs := by
    simp [parseConversations, pyDictGet]
  rw [hred, fromMap_eq_filterMap recs h]
  exact ⟨rfl, length_filterMap_eq _ recs⟩

def c8Turn : ChatItem := { request_message := some "hi" }

def c8Data : ConvData := { chatHistory := some [c8Turn] }

def c8Recs : List (String × ConvVal) :=
  [("good1", .dict c8Data), ("bad", .notDict), ("good2", .dict c8Data)]

/-- Witness for C8: two valid records around one malformed (non-dict)
record yield exactly the two valid conversations. -/
theorem record_isolation_witness :
    parseConversations [(mainChatKey,
        { parsed_data := some { webviewState := some { conversations := c8Recs } } })]
      = c8Recs.filterMap (fun r => parseSingleConversation r.1 r.2) ∧
    (parseConversations [(mainChatKey,
        { parsed_data := some { webviewState := some { conversations := c8Recs } } })]).length
      = (c8Recs.filter (fun r => (parseSingleConversation r.1 r.2).isSome)).length :=
  record_isolation c8Recs (by decide)

/-! ### C9: pinned and shareable defaults -/

def c9Data : ConvData := {}

/-- Counterexample to C9 as stated: on the Cursor extraction path a
record without `isShareable` gets the shareable flag `True`
(`conv_data.get('isShareable', True)` at line 329), not false. -/
theorem flags_default_counterexample :
    (cursorParseConversation "c" (.dict c9Data) none).map AugmentConversation.is_shareable
      = some true ∧
    (cursorParseConversation "c" (.dict c9Data) none).map AugmentConversation.is_shareable
      ≠ some false := by
  exact ⟨rfl, by decide⟩

/-- C9 (amended): when `isPinned` and `isShareable` are absent, the
pinned flag defaults to false on every path and the shareable flag
defaults to false on the VSCode and IDEA paths (which share
`_parse_single_conversation`) but to true on the Cursor path. -/
theorem flags_default (cid : String) (c : ConvData) (ws : Option String)
    (hp : c.isPinned = none) (hs : c.isShareable = none) :
    (parseSingleConversation cid (.dict c)).map Conversation.is_pinned = some false ∧
    (parseSingleConversation cid (.dict c)).map Conversation.is_shareable = some false ∧
    (cursorParseConversation cid (.dict c) ws).map AugmentConversation.is_pinned
      = some false ∧
    (cursorParseConversation cid (.dict c) ws).map AugmentConversation.is_shareable
      = some true := by
  simp [parseSingleConversation, cursorParseConversation, hp, hs]

/-- Witness for C9 (amended) on a record with both flags absent. -/
theorem flags_default_witness :
    (parseSingleConversation "c" (.dict c9Data)).map Conversation.is_pinned = some false ∧
    (parseSingleConversation "c" (.dict c9Data)).map Conversation.is_shareable = some false ∧
    (cursorParseConversation "c" (.dict c9Data) none).map AugmentConversation.is_pinned
      = some false ∧
    (cursorParseConversation "c" (.dict c9Data) none).map AugmentConversation.is_shareable
      = some true :=
  flags_default "c" c9Data none rfl rfl

/-! ### C10: total extraction and title-only payloads -/

theorem processMermaidNode_empty_dd (d : List (String × JVal))
    (hd : pyDictGet d "diagram_definition" = none ∨
      pyDictGet d "diagram_definition" = some (.str "")) :
    processMermaidNode d = "" := by
  rcases hd with h | h <;> simp [processMermaidNode, h, jvalFalsy]

def titleOnlyNode : OutputNode :=
  { id := some 1, type := some 0,
    content := some "\x7b\"type\": \"mermaid_diagram\", \"title\": \"Flow\"\x7d" }

def titleOnlyItem : ChatItem := { structured_output_nodes := some [titleOnlyNode] }

/-- Counterexample to C10 as stated: a type-0 text fragment holding a
mermaid payload with only a title renders to `""`, does not `continue`,
and falls through to the plain-text append — it contributes its raw JSON
text, so the payload does contribute content. -/
theorem title_only_counterexample :
    extractStructuredContent titleOnlyItem
      = "\x7b\"type\": \"mermaid_diagram\", \"title\": \"Flow\"\x7d" ∧
    extractStructuredContent titleOnlyItem ≠ "" := by
  exact ⟨by decide, by decide⟩

/-- C10 (amended): structured-content extraction is total — an aborted
body yields the empty string — and `_process_mermaid_node` returns the
empty string whenever `diagram_definition` is missing or empty, so a
title-only diagram payload in a `render-mermaid` tool fragment
contributes nothing, not even the bold title (while a title-only payload
in a type-0 text fragment falls back to its raw text, see the
counterexample). -/
theorem structured_extraction_safety :
    (∀ item : ChatItem, extractStructuredContentE item = .error () →
      extractStructuredContent item = "") ∧
    (∀ d : List (String × JVal),
      pyDictGet d "diagram_definition" = none ∨
        pyDictGet d "diagram_definition" = some (.str "") →
      processMermaidNode d = "") ∧
    (∀ (n : OutputNode) (tun : ToolUseData) (fields : List (String × JVal)),
      n.type = some 5 → n.tool_use = some tun →
      tun.tool_name.getD "" = "render-mermaid" →
      jsonParse (tun.input_json.getD "") = some (.obj fields) →
      (pyDictGet fields "diagram_definition" = none ∨
        pyDictGet fields "diagram_definition" = some (.str "")) →
      processOutputNode n = .ok none) := by
  refine ⟨?_, ?_, ?_⟩
  · intro item h
    simp [extractStructuredContent, h]
  · intro d hd
    exact processMermaidNode_empty_dd d hd
  · intro n tun fields htn htun hname hjson hdd
    have hinput : tun.input_json.getD "" ≠ "" := by
      intro h0
      rw [h0, show jsonParse "" = none from rfl] at hjson
      exact Option.noConfusion hjson
    have hm0 : processMermaidNode
        [("type", .str "mermaid_diagram"),
         ("diagram_definition", (pyDictGet fields "diagram_definition").getD (.str "")),
         ("title", (pyDictGet fields "title").getD (.str ""))] = "" := by
      apply processMermaidNode_empty_dd
      right
      rcases hdd with h | h <;> simp [pyDictGet, h]
    simp [processOutputNode, htn, htun, hname, hinput, hjson, hm0]

def c10BadNode : OutputNode :=
  { id := some 1, type := some 5,
    tool_use := some { tool_name := some "render-mermaid", input_json := some "[]" } }

def c10BadItem : ChatItem := { structured_output_nodes := some [c10BadNode] }

def c10TitleTU : ToolUseData :=
  { tool_name := some "render-mermaid", input_json := some "\x7b\"title\": \"Flow\"\x7d" }

def c10TitleNode : OutputNode := { id := some 1, type := some 5, tool_use := some c10TitleTU }

/-- Witness for C10 (amended): an aborting input yields `""`; a
title-only payload renders to `""`; a title-only `render-mermaid` tool
fragment contributes nothing. -/
theorem structured_extraction_safety_witness :
    extractStructuredContent c10BadItem = "" ∧
    processMermaidNode [("type", .str "mermaid_diagram"), ("title", .str "Flow")] = "" ∧
    processOutputNode c10TitleNode = .ok none :=
  ⟨structured_extraction_safety.1 c10BadItem rfl,
   structured_extraction_safety.2.1 _ (Or.inl rfl),
   structured_extraction_safety.2.2 c10TitleNode c10TitleTU [("title", .str "Flow")]
     rfl rfl rfl rfl (Or.inl rfl)⟩
